import Mathlib

/-!
Verification of the turn-based narrative engine in game.py
(class ModernWesterosGame plus the game_action route).

Strings are embedded as List Char. Python str.split, str.strip, int(...)
and membership tests are embedded by the executable functions below,
translated clause by clause from the source. External effects (the sqlite
choice store and the two language-model chains) are modelled by an oracle
record: each oracle field holds the outcome the external collaborator
would produce, with none standing for a raised exception.
-/

namespace GOL

/-- Python: c == sep test used by str.split with a one-char separator,
generalised: leadsWith sep l is true when sep is a prefix of l
(mirrors str.startswith, used to locate separator occurrences). -/
def leadsWith : List Char → List Char → Bool
  | [], _ => true
  | _ :: _, [] => false
  | a :: as, b :: bs => a == b && leadsWith as bs

/-- containsSub sep l: sep occurs in l as a contiguous substring
(Python: sep in l for strings). -/
def containsSub (sep : List Char) : List Char → Bool
  | [] => sep.isEmpty
  | c :: cs => leadsWith sep (c :: cs) || containsSub sep cs

/-- Worker for pysplit. The Nat argument counts separator characters
still to be skipped after a match (Python str.split consumes the
separator and scans on past it, non-overlapping). -/
def splitSubGo (sep : List Char) : List Char → Nat → List (List Char)
  | [], _ => [[]]
  | _ :: cs, Nat.succ k => splitSubGo sep cs k
  | c :: cs, 0 =>
    if leadsWith sep (c :: cs) then
      [] :: splitSubGo sep cs (sep.length - 1)
    else
      match splitSubGo sep cs 0 with
      | [] => [[c]]
      | p :: ps => (c :: p) :: ps

/-- Python str.split(sep) for a nonempty separator string: splits on every
non-overlapping occurrence of sep, keeping empty pieces, so the result
always has (number of occurrences + 1) elements. -/
def pysplit (sep : List Char) (l : List Char) : List (List Char) :=
  splitSubGo sep l 0

/-- Python whitespace test used by str.strip (the characters that occur in
this code base are plain spaces, tabs, newlines and carriage returns). -/
def isSpaceChar (c : Char) : Bool :=
  c == ' ' || c == '\t' || c == '\n' || c == '\r'

/-- Python str.strip(): drop leading and trailing whitespace. -/
def pystrip (l : List Char) : List Char :=
  ((l.dropWhile isSpaceChar).reverse.dropWhile isSpaceChar).reverse

/-- Python list indexing [1] on a split result: raises IndexError when the
list has fewer than two elements, modelled as none. -/
def index1 : List (List Char) → Option (List Char)
  | _ :: x :: _ => some x
  | _ => none

/-! Embedding of parse_stats_impact (game.py lines 144-163). -/

/-- game.py line 154, the generator inside extract_number:
keep only characters that are digits or the signs. -/
def keepNumChars (l : List Char) : List Char :=
  l.filter (fun c => c.isDigit || c == '+' || c == '-')

/-- All characters are ASCII digits. -/
def allDigits (l : List Char) : Bool :=
  l.all Char.isDigit

/-- Value of a string of ASCII digits, most significant first. -/
def digitsVal (l : List Char) : Nat :=
  l.foldl (fun a c => a * 10 + (c.toNat - 48)) 0

/-- Python int(s) on a string made only of digit and sign characters:
succeeds exactly on an optional single leading sign followed by at least
one digit; any other shape raises ValueError, modelled as none. -/
def parseSignedInt (l : List Char) : Option Int :=
  match l with
  | [] => none
  | c :: rest =>
    if c == '+' then
      if rest ≠ [] ∧ allDigits rest = true then some ((digitsVal rest : Int)) else none
    else if c == '-' then
      if rest ≠ [] ∧ allDigits rest = true then some (-(digitsVal rest : Int)) else none
    else
      if allDigits (c :: rest) = true then some ((digitsVal (c :: rest) : Int)) else none

/-- game.py lines 153-154: extract_number(impact_str). The ValueError a
malformed literal raises is modelled as none (it is caught by the
enclosing try of parse_stats_impact). -/
def extract_number (impact : List Char) : Option Int :=
  parseSignedInt (keepNumChars impact)

/-- game.py line 149: choice.split("(")[1].split(")")[0].split(",").
The [1] index is only reached under the guard that guarantees at least
one "(" occurrence, hence at least two split pieces; tail.headD is
exactly element 1 there. The [0] index never raises. -/
def impact_tokens (choice : List Char) : List (List Char) :=
  pysplit [','] ((pysplit [')'] ((pysplit ['('] choice).tail.headD [])).headD [])

/-- game.py lines 144-163, parse_stats_impact(choice): returns the
(happiness_impact, wealth_impact) pair, and (0, 0) when the guard on
lines 146-147 fails, when fewer than two comma tokens result (150-151),
or when either int(...) call raises (caught on lines 161-163). -/
def parse_stats_impact (choice : List Char) : Int × Int :=
  if ('(' ∈ choice) ∧ (')' ∈ choice) then
    if (impact_tokens choice).length < 2 then (0, 0)
    else
      match extract_number ((impact_tokens choice).headD []),
            extract_number ((impact_tokens choice).tail.headD []) with
      | some hi, some wi => (hi, wi)
      | _, _ => (0, 0)
  else (0, 0)

/-! Embedding of the game state and its transitions. -/

/-- The five per-session fields of ModernWesterosGame that
get_serializable_state captures (game.py lines 23-27 and 32-40). -/
structure GameState where
  player_history : List (List Char)
  happiness : Int
  wealth : Int
  turn_count : Int
  game_id : List Char
deriving DecidableEq

/-- game.py lines 16-27: fresh game. game_id is os.urandom(16).hex(),
passed in here as a parameter. -/
def init_game (gid : List Char) : GameState :=
  { player_history := [], happiness := 30, wealth := 100000,
    turn_count := 0, game_id := gid }

/-- game.py lines 167-168, the arithmetic core of update_stats:
happiness is clamped into [0, 100], wealth only floored at 0. -/
def apply_deltas (happiness wealth dh dw : Int) : Int × Int :=
  (max 0 (min 100 (happiness + dh)), max 0 (wealth + dw))

/-- game.py lines 165-169, update_stats(choice_text): parses the impacts
out of the choice text, mutates happiness and wealth, and returns the
impact pair. -/
def update_stats (g : GameState) (choice_text : List Char) : GameState × (Int × Int) :=
  let d := parse_stats_impact choice_text
  let hw := apply_deltas g.happiness g.wealth d.1 d.2
  ({ g with happiness := hw.1, wealth := hw.2 }, d)

/-- The four game-over messages of game.py lines 171-192 plus the empty
message of the continue case, as tags:
happinessZero = "Game Over! Your happiness has reached zero. ...",
wealthZero = "Game Over! You have gone broke. ...",
victory = "Victory! You have achieved both wealth and happiness. ...",
turnLimit = "Game Over! You have completed your journey, ...",
continueGame = the empty string returned with False. -/
inductive GameOverMsg where
  | continueGame
  | happinessZero
  | wealthZero
  | victory
  | turnLimit
deriving DecidableEq

/-- game.py lines 171-192, check_game_over(): the four conditions tested
in source order, first match returning (True, message). -/
def check_game_over (g : GameState) : Bool × GameOverMsg :=
  if g.happiness ≤ 0 then (true, .happinessZero)
  else if g.wealth ≤ 0 then (true, .wealthZero)
  else if g.happiness ≥ 80 ∧ g.wealth ≥ 150000 then (true, .victory)
  else if g.turn_count ≥ 10 then (true, .turnLimit)
  else (false, .continueGame)

/-! Embedding of make_choice (game.py 220-247) and get_story_segment
(game.py 202-218), with the external collaborators as oracles. -/

/-- Outcomes of the external calls a single make_choice turn can issue
(game.py: store_choice on line 226, consequence_chain.invoke on 229,
and the story_chain.invoke inside get_story_segment). A none field means
that call raised. storeOk = false means store_choice raised. -/
structure Oracles where
  storeOk : Bool
  consequence : Option (List Char)
  nextSegment : Option (List Char)
  recoverySegment : Option (List Char)

/-- game.py line 218: the string get_story_segment returns when its own
try block fails. -/
def genFailureText : List Char :=
  "Error generating story segment.".toList

/-- game.py line 245: the consequence string the except branch of
make_choice returns. -/
def unclearConsequence : List Char :=
  "The outcome of your choice was unclear...".toList

/-- game.py lines 202-218, get_story_segment: returns the chain response,
or the fixed failure text when anything in its try block (the database
read or the llm call) raises. The oracle argument is that outcome. -/
def get_story_segment (resp : Option (List Char)) : List Char :=
  match resp with
  | some r => r
  | none => genFailureText

/-- game.py lines 223: the blank test
"not choice_text or len(choice_text.strip()) == 0". -/
def isBlank (l : List Char) : Bool :=
  l.isEmpty || (pystrip l).isEmpty

/-- game.py lines 220-247, make_choice(choice_text): returns the new state
and the (consequence, next_segment) pair. The try body runs in source
order: turn_count += 1; blank check (raises ValueError); store_choice;
update_stats; consequence_chain.invoke; history append; return. Any raise
lands in the except branch (lines 243-247), which returns the fixed
unclear-consequence text and a segment generated from the recovery
prompt "Jon needs to reassess his options...". -/
def make_choice (g : GameState) (choice_text : List Char) (o : Oracles) :
    GameState × (List Char × List Char) :=
  let g1 : GameState := { g with turn_count := g.turn_count + 1 }
  if isBlank choice_text then
    (g1, (unclearConsequence, get_story_segment o.recoverySegment))
  else if o.storeOk = false then
    (g1, (unclearConsequence, get_story_segment o.recoverySegment))
  else
    let g2 := (update_stats g1 choice_text).1
    match o.consequence with
    | none => (g2, (unclearConsequence, get_story_segment o.recoverySegment))
    | some cons =>
      let g3 : GameState := { g2 with player_history := g2.player_history ++ [choice_text] }
      (g3, (cons, get_story_segment o.nextSegment))

/-! Embedding of the segment extraction done in game_action
(game.py lines 271-280 and 310-315): story and choices are sliced out of
the raw segment text with str.split on the literal markers. -/

/-- The literal marker "STORY:". -/
def storyMarker : List Char := "STORY:".toList

/-- The literal marker "CHOICES:". -/
def choicesMarker : List Char := "CHOICES:".toList

/-- The literal marker "CHOICES:\n" used for the choices list. -/
def choicesNlMarker : List Char := "CHOICES:\n".toList

/-- The failure the spec names MalformedSegmentError: in game.py the [1]
index on the split raises IndexError when a marker is absent, aborting
the whole response (caught by the route and never shown as partial
text). -/
inductive MalformedSegmentError where
  | missingMarker
deriving DecidableEq

/-- game.py lines 310-315 (identically 271-280): story is
seg.split("STORY:")[1].split("CHOICES:")[0].strip(), the choices are the
first three stripped nonempty lines of seg.split("CHOICES:\n")[1]. Each
[1] index raises when its marker is absent; both raises are modelled as
the error value. -/
def parse_segment (seg : List Char) :
    Except MalformedSegmentError (List Char × List (List Char)) :=
  match index1 (pysplit storyMarker seg) with
  | none => .error .missingMarker
  | some afterStory =>
    let story := pystrip ((pysplit choicesMarker afterStory).headD [])
    match index1 (pysplit choicesNlMarker seg) with
    | none => .error .missingMarker
    | some afterChoices =>
      .ok (story,
        (((pysplit ['\n'] afterChoices).map pystrip).filter
          (fun c => c.isEmpty = false)).take 3)

/-! Embedding of the session state codec (game.py 32-48). -/

/-- Values that occur in the serialized state dict. -/
inductive JVal where
  | jstr : List Char → JVal
  | jint : Int → JVal
  | jlist : List (List Char) → JVal
deriving DecidableEq

/-- Python dict lookup d[k]: none models KeyError. The dicts built here
have distinct keys, so first-match lookup is exact. -/
def dictGet (r : List (List Char × JVal)) (k : List Char) : Option JVal :=
  match r with
  | [] => none
  | (k2, v) :: rest => if k2 = k then some v else dictGet rest k

/-- game.py lines 32-40, get_serializable_state: the five-field dict. -/
def get_serializable_state (g : GameState) : List (List Char × JVal) :=
  [("player_history".toList, .jlist g.player_history),
   ("happiness".toList, .jint g.happiness),
   ("wealth".toList, .jint g.wealth),
   ("turn_count".toList, .jint g.turn_count),
   ("game_id".toList, .jstr g.game_id)]

/-- game.py lines 42-48, load_state(state): reads the five keys and
overwrites every field. A missing key raises KeyError (none); a value of
an unexpected shape is also mapped to none (Python would store it
unchecked, but serialize never produces one). -/
def load_state (r : List (List Char × JVal)) : Option GameState :=
  match dictGet r ("player_history".toList), dictGet r ("happiness".toList),
        dictGet r ("wealth".toList), dictGet r ("turn_count".toList),
        dictGet r ("game_id".toList) with
  | some (.jlist ph), some (.jint h), some (.jint w), some (.jint t), some (.jstr gid) =>
      some { player_history := ph, happiness := h, wealth := w,
             turn_count := t, game_id := gid }
  | _, _, _, _, _ => none

/-! Concrete fixtures used to instantiate the theorems. -/

/-- Oracle outcome set in which every external call succeeds. -/
def oracleAllOk : Oracles :=
  { storeOk := true, consequence := some "They nodded.".toList,
    nextSegment := some "STORY: Next.".toList,
    recoverySegment := some "STORY: Recovery.".toList }

/-- Oracle outcome set in which the consequence chain raises. -/
def oracleConsFail : Oracles :=
  { storeOk := true, consequence := none, nextSegment := none,
    recoverySegment := some "STORY: Recovery.".toList }

/-- Oracle outcome set in which only the next-segment generation raises. -/
def oracleSegFail : Oracles :=
  { storeOk := true, consequence := some "The deal closed smoothly.".toList,
    nextSegment := none, recoverySegment := some "STORY: Recovery.".toList }

/-- A well-formed choice line from the prompt template (game.py line 90). -/
def sampleChoice : List Char :=
  "Consult with Bran: See the future and make wise investments (Happiness: +10, Wealth: +25000)".toList

end GOL

namespace GOL

/-! Helper lemmas about the split embedding. -/

/-- A split result is never the empty list (Python split always returns
at least one piece). -/
theorem splitSubGo_ne_nil (sep l : List Char) (skip : Nat) :
    splitSubGo sep l skip ≠ [] := by
  induction l generalizing skip with
  | nil => simp [splitSubGo]
  | cons c cs ih =>
    cases skip with
    | succ k => simpa [splitSubGo] using ih k
    | zero =>
      simp only [splitSubGo]
      split
      · simp
      · split
        · simp
        · simp

/-- When the separator does not occur in l, str.split returns the single
piece l. -/
theorem splitSubGo_eq_of_not_contains (sep l : List Char)
    (h : containsSub sep l = false) : splitSubGo sep l 0 = [l] := by
  induction l with
  | nil => simp [splitSubGo]
  | cons c cs ih =>
    rw [containsSub, Bool.or_eq_false_iff] at h
    simp only [splitSubGo, h.1, Bool.false_eq_true, if_false, ih h.2]

/-- If a ++ b is a prefix of l then so is a. -/
theorem leadsWith_append (a b l : List Char) (h : leadsWith (a ++ b) l = true) :
    leadsWith a l = true := by
  induction a generalizing l with
  | nil => simp [leadsWith]
  | cons x xs ih =>
    cases l with
    | nil => simp [leadsWith] at h
    | cons y ys =>
      rw [List.cons_append, leadsWith, Bool.and_eq_true] at h
      rw [leadsWith, Bool.and_eq_true]
      exact ⟨h.1, ih ys h.2⟩

/-- If a does not occur in l then neither does any extension a ++ b. -/
theorem containsSub_mono (a b l : List Char) (h : containsSub a l = false) :
    containsSub (a ++ b) l = false := by
  induction l with
  | nil =>
    rw [containsSub] at h ⊢
    cases a with
    | nil => simp at h
    | cons x xs => simp
  | cons c cs ih =>
    rw [containsSub, Bool.or_eq_false_iff] at h ⊢
    refine ⟨?_, ih h.2⟩
    cases hlw : leadsWith (a ++ b) (c :: cs) with
    | false => rfl
    | true => exact absurd (leadsWith_append a b _ hlw) (by simp [h.1])

/-- Splitting on a single character that heads the rest: the piece before
the separator comes off whole. -/
theorem splitSubGo_singleton_append (s : Char) (l r : List Char) (h : s ∉ l) :
    splitSubGo [s] (l ++ s :: r) 0 = l :: splitSubGo [s] r 0 := by
  induction l with
  | nil => simp [splitSubGo, leadsWith]
  | cons c cs ih =>
    rw [List.mem_cons, not_or] at h
    have hlw : leadsWith [s] (c :: (cs ++ s :: r)) = false := by
      simp [leadsWith, h.1]
    rw [List.cons_append]
    simp only [splitSubGo, hlw, Bool.false_eq_true, if_false, ih h.2]

/-- The first piece of a split of l ++ r, when the separator is absent
from l, is l extended by the first piece of the split of r. -/
theorem headD_splitSubGo_append (s : Char) (l r : List Char) (h : s ∉ l) :
    (splitSubGo [s] (l ++ r) 0).headD [] = l ++ (splitSubGo [s] r 0).headD [] := by
  induction l with
  | nil => simp
  | cons c cs ih =>
    rw [List.mem_cons, not_or] at h
    have hlw : leadsWith [s] (c :: (cs ++ r)) = false := by
      simp [leadsWith, h.1]
    rw [List.cons_append]
    simp only [splitSubGo, hlw, Bool.false_eq_true, if_false]
    cases hsplit : splitSubGo [s] (cs ++ r) 0 with
    | nil => exact absurd hsplit (splitSubGo_ne_nil [s] (cs ++ r) 0)
    | cons p ps =>
      have := ih h.2
      rw [hsplit] at this
      simp only [List.headD_cons] at this ⊢
      rw [this, List.cons_append]

/-! Claim theorems. -/

/-- Claim C1: for every state with 0 <= happiness <= 100 and wealth >= 0
and every pair of integer deltas, the stat update computes happiness as
clamp(happiness + dh, 0, 100), hence 0 <= happiness <= 100 afterwards,
and wealth as max(0, wealth + dw) with no upper clamp, hence
wealth >= 0 afterwards; update_stats applies exactly this arithmetic to
the deltas parsed from the choice text. -/
theorem update_stats_clamps (g : GameState) (dh dw : Int) (choice : List Char)
    (h0 : 0 ≤ g.happiness) (h1 : g.happiness ≤ 100) (hw : 0 ≤ g.wealth) :
    ((apply_deltas g.happiness g.wealth dh dw).1 = max 0 (min 100 (g.happiness + dh)) ∧
     0 ≤ (apply_deltas g.happiness g.wealth dh dw).1 ∧
     (apply_deltas g.happiness g.wealth dh dw).1 ≤ 100 ∧
     (apply_deltas g.happiness g.wealth dh dw).2 = max 0 (g.wealth + dw) ∧
     0 ≤ (apply_deltas g.happiness g.wealth dh dw).2) ∧
    ((update_stats g choice).1.happiness =
       max 0 (min 100 (g.happiness + (parse_stats_impact choice).1)) ∧
     0 ≤ (update_stats g choice).1.happiness ∧
     (update_stats g choice).1.happiness ≤ 100 ∧
     (update_stats g choice).1.wealth = max 0 (g.wealth + (parse_stats_impact choice).2) ∧
     0 ≤ (update_stats g choice).1.wealth) := by
  constructor
  · refine ⟨rfl, ?_, ?_, rfl, ?_⟩ <;> simp only [apply_deltas] <;> omega
  · refine ⟨rfl, ?_, ?_, rfl, ?_⟩ <;> simp only [update_stats, apply_deltas] <;> omega

/-- Claim C1 witness: a delta of -1000 on happiness 5 clamps to 0, and a
negative wealth delta on wealth 0 floors at 0. -/
theorem update_stats_clamps_witness :
    ((apply_deltas 5 0 (-1000) (-7)).1 = max 0 (min 100 (5 + (-1000))) ∧
     0 ≤ (apply_deltas 5 0 (-1000) (-7)).1 ∧
     (apply_deltas 5 0 (-1000) (-7)).1 ≤ 100 ∧
     (apply_deltas 5 0 (-1000) (-7)).2 = max 0 (0 + (-7)) ∧
     0 ≤ (apply_deltas 5 0 (-1000) (-7)).2) ∧
    ((update_stats ⟨[], 5, 0, 0, []⟩ "(Happiness: -1000, Wealth: -7)".toList).1.happiness =
       max 0 (min 100 (5 + (parse_stats_impact "(Happiness: -1000, Wealth: -7)".toList).1)) ∧
     0 ≤ (update_stats ⟨[], 5, 0, 0, []⟩ "(Happiness: -1000, Wealth: -7)".toList).1.happiness ∧
     (update_stats ⟨[], 5, 0, 0, []⟩ "(Happiness: -1000, Wealth: -7)".toList).1.happiness ≤ 100 ∧
     (update_stats ⟨[], 5, 0, 0, []⟩ "(Happiness: -1000, Wealth: -7)".toList).1.wealth =
       max 0 (0 + (parse_stats_impact "(Happiness: -1000, Wealth: -7)".toList).2) ∧
     0 ≤ (update_stats ⟨[], 5, 0, 0, []⟩ "(Happiness: -1000, Wealth: -7)".toList).1.wealth) :=
  update_stats_clamps ⟨[], 5, 0, 0, []⟩ (-1000) (-7)
    "(Happiness: -1000, Wealth: -7)".toList (by decide) (by decide) (by decide)

/-- Claim C2: check_game_over tests its conditions in the fixed source
order happiness <= 0, wealth <= 0, happiness >= 80 and wealth >= 150000,
turn_count >= 10, first match winning; in particular happiness = 0 with
wealth = 200000 is a happiness-depleted defeat, never a victory. -/
theorem check_game_over_precedence (g : GameState) :
    (g.happiness ≤ 0 → check_game_over g = (true, .happinessZero)) ∧
    (0 < g.happiness → g.wealth ≤ 0 → check_game_over g = (true, .wealthZero)) ∧
    (0 < g.happiness → 0 < g.wealth → 80 ≤ g.happiness → 150000 ≤ g.wealth →
      check_game_over g = (true, .victory)) ∧
    (0 < g.happiness → 0 < g.wealth → ¬(80 ≤ g.happiness ∧ 150000 ≤ g.wealth) →
      10 ≤ g.turn_count → check_game_over g = (true, .turnLimit)) ∧
    (0 < g.happiness → 0 < g.wealth → ¬(80 ≤ g.happiness ∧ 150000 ≤ g.wealth) →
      g.turn_count < 10 → check_game_over g = (false, .continueGame)) := by
  refine ⟨fun a => ?_, fun a b => ?_, fun a b c d => ?_,
    fun a b c d => ?_, fun a b c d => ?_⟩ <;>
    simp only [check_game_over, ge_iff_le] <;>
    split_ifs <;> first | rfl | omega

/-- Claim C2 witness: happiness 0 with wealth 200000 is a defeat via the
happiness check, even though wealth exceeds the victory threshold. -/
theorem check_game_over_precedence_witness :
    check_game_over ⟨[], 0, 200000, 3, []⟩ = (true, .happinessZero) :=
  (check_game_over_precedence ⟨[], 0, 200000, 3, []⟩).1 (by decide)

/-- Claim C6: make_choice increments turn_count by exactly one at the
start of the turn for every choice text and every combination of
downstream outcomes, including the blank-text raise, a store failure and
a consequence-generation failure. -/
theorem make_choice_increments_turn (g : GameState) (choice : List Char) (o : Oracles) :
    (make_choice g choice o).1.turn_count = g.turn_count + 1 := by
  unfold make_choice
  split_ifs with h1 h2
  · rfl
  · rfl
  · cases hc : o.consequence <;> simp [update_stats]

/-- Claim C9: deserializing the serialized five-field record restores the
original state, a lossless round trip. -/
theorem state_roundtrip (g : GameState) :
    load_state (get_serializable_state g) = some g := rfl

/-- Claim C3 amended: for a choice string whose group between the first
opening and the following closing parenthesis contains no nested opening
parenthesis, and which splits on commas into at least two tokens with
each of the first two tokens reducing to a valid signed integer after
keeping only digit and sign characters, parse_stats_impact returns the
first token value as the happiness delta and the second as the wealth
delta, in that strict order. The no-nested-parenthesis restriction is
forced by parse_impact_nested_paren_cex: with a second opening
parenthesis before the closing one, split("(")[1] truncates the group
there and the parse generally falls back to (0, 0). -/
theorem parse_impact_ordered (pre body post t1 t2 : List Char)
    (rest : List (List Char)) (n1 n2 : Int)
    (hpre : '(' ∉ pre) (hb1 : '(' ∉ body) (hb2 : ')' ∉ body)
    (htok : pysplit [','] body = t1 :: t2 :: rest)
    (h1 : extract_number t1 = some n1) (h2 : extract_number t2 = some n2) :
    parse_stats_impact (pre ++ '(' :: body ++ ')' :: post) = (n1, n2) := by
  have mem1 : '(' ∈ pre ++ '(' :: body ++ ')' :: post := by simp
  have mem2 : ')' ∈ pre ++ '(' :: body ++ ')' :: post := by simp
  have e1 : pysplit ['('] (pre ++ '(' :: (body ++ ')' :: post)) =
      pre :: splitSubGo ['('] (body ++ ')' :: post) 0 :=
    splitSubGo_singleton_append '(' pre (body ++ ')' :: post) hpre
  have hb3 : '(' ∉ body ++ [')'] := by
    simp only [List.mem_append, List.mem_singleton, not_or]
    exact ⟨hb1, by decide⟩
  have e2 : (splitSubGo ['('] (body ++ ')' :: post) 0).headD [] =
      body ++ ')' :: (splitSubGo ['('] post 0).headD [] := by
    have := headD_splitSubGo_append '(' (body ++ [')']) post hb3
    simpa using this
  have e3 : pysplit [')'] (body ++ ')' :: (splitSubGo ['('] post 0).headD []) =
      body :: splitSubGo [')'] ((splitSubGo ['('] post 0).headD []) 0 :=
    splitSubGo_singleton_append ')' body _ hb2
  have htokens : impact_tokens (pre ++ '(' :: body ++ ')' :: post) = t1 :: t2 :: rest := by
    unfold impact_tokens
    rw [show pre ++ '(' :: body ++ ')' :: post = pre ++ '(' :: (body ++ ')' :: post) by simp,
      e1]
    simp only [List.tail_cons, e2, e3, List.headD_cons]
    exact htok
  rw [parse_stats_impact, if_pos ⟨mem1, mem2⟩, htokens]
  simp [h1, h2]

/-- Claim C3 witness: a choice line carrying the annotation
(Happiness: +20, Wealth: -50000) yields the pair (20, -50000). -/
theorem parse_impact_ordered_witness :
    parse_stats_impact ("Act like a Dothraki: Take what is yours ".toList ++
      '(' :: "Happiness: +20, Wealth: -50000".toList ++ ')' :: []) = (20, -50000) :=
  parse_impact_ordered "Act like a Dothraki: Take what is yours ".toList
    "Happiness: +20, Wealth: -50000".toList [] "Happiness: +20".toList
    " Wealth: -50000".toList [] 20 (-50000) (by decide) (by decide) (by decide)
    (by decide) (by decide) (by decide)

/-- Claim C3 counterexample: the input x(a(+1, +2)y is in the scope of
the claim as frozen: it contains a parenthesis pair, and the substring
between the first opening parenthesis and the first closing one after
it, namely a(+1, +2, splits on the comma into two tokens whose digit and
sign residues are the valid literals +1 and +2 — so the claim demands
the result (1, 2). But choice.split("(")[1] on game.py line 149 is the
text between the FIRST and SECOND opening parenthesis, here just the
single letter a, which yields one comma token and hence the default
(0, 0): the claim is false of the code on nested parentheses. -/
theorem parse_impact_nested_paren_cex :
    "x(a(+1, +2)y".toList =
      "x".toList ++ '(' :: "a(+1, +2".toList ++ ')' :: "y".toList ∧
    pysplit [','] "a(+1, +2".toList = ["a(+1".toList, " +2".toList] ∧
    extract_number "a(+1".toList = some 1 ∧
    extract_number " +2".toList = some 2 ∧
    parse_stats_impact "x(a(+1, +2)y".toList = (0, 0) ∧
    parse_stats_impact "x(a(+1, +2)y".toList ≠ (1, 2) := by decide

/-- Claim C4: parse_stats_impact is total and defaults to (0, 0) in each
failure mode: a missing parenthesis, fewer than two comma tokens in the
extracted group, and a token whose digit-and-sign residue is not a valid
signed integer literal. -/
theorem parse_impact_defaults (choice : List Char) :
    (('(' ∉ choice ∨ ')' ∉ choice) → parse_stats_impact choice = (0, 0)) ∧
    ((impact_tokens choice).length < 2 → parse_stats_impact choice = (0, 0)) ∧
    ((extract_number ((impact_tokens choice).headD []) = none ∨
      extract_number ((impact_tokens choice).tail.headD []) = none) →
      parse_stats_impact choice = (0, 0)) := by
  refine ⟨fun h => ?_, fun h => ?_, fun h => ?_⟩
  · rw [parse_stats_impact, if_neg (by tauto)]
  · by_cases hc : ('(' ∈ choice) ∧ (')' ∈ choice)
    · rw [parse_stats_impact, if_pos hc, if_pos h]
    · rw [parse_stats_impact, if_neg hc]
  · by_cases hc : ('(' ∈ choice) ∧ (')' ∈ choice)
    · by_cases hl : (impact_tokens choice).length < 2
      · rw [parse_stats_impact, if_pos hc, if_pos hl]
      · rw [parse_stats_impact, if_pos hc, if_neg hl]
        cases hA : extract_number ((impact_tokens choice).headD []) <;>
          cases hB : extract_number ((impact_tokens choice).tail.headD []) <;>
          simp_all
    · rw [parse_stats_impact, if_neg hc]

/-- Claim C4 witness: tokens with no digits at all fail closed to (0, 0)
rather than raising. -/
theorem parse_impact_defaults_witness :
    parse_stats_impact "(no digits, at all)".toList = (0, 0) :=
  (parse_impact_defaults "(no digits, at all)".toList).2.2 (Or.inl (by decide))

/-- Claim C5: when the literal marker STORY: or the literal marker
CHOICES: is absent from the raw model output, segment extraction fails
with the malformed-segment error instead of returning partial story or
choice text. -/
theorem parse_segment_fails_without_markers (seg : List Char)
    (h : containsSub storyMarker seg = false ∨ containsSub choicesMarker seg = false) :
    parse_segment seg = .error .missingMarker := by
  cases hs : index1 (pysplit storyMarker seg) with
  | none => rw [parse_segment, hs]
  | some afterStory =>
    cases h with
    | inl h1 =>
      rw [pysplit, splitSubGo_eq_of_not_contains _ _ h1] at hs
      have hnone : index1 [seg] = (none : Option (List Char)) := rfl
      rw [hnone] at hs
      exact Option.noConfusion hs
    | inr h2 =>
      have h3 : containsSub choicesNlMarker seg = false := by
        have := containsSub_mono choicesMarker ['\n'] seg h2
        rwa [show choicesMarker ++ ['\n'] = choicesNlMarker by decide] at this
      have h4 : index1 (pysplit choicesNlMarker seg) = (none : Option (List Char)) := by
        rw [pysplit, splitSubGo_eq_of_not_contains _ _ h3]
        rfl
      rw [parse_segment, hs, h4]

/-- Claim C5 witness: output that has a story but lacks the CHOICES:
marker is rejected whole. -/
theorem parse_segment_fails_without_markers_witness :
    parse_segment "STORY: Winter came for the housing market.".toList =
      .error .missingMarker :=
  parse_segment_fails_without_markers
    "STORY: Winter came for the housing market.".toList (Or.inr (by decide))

/-- Claim C7 counterexample: a whitespace-only choice submitted to
make_choice does consume the turn (turn_count goes from 0 to 1), and the
caller receives the ordinary fallback pair rather than a surfaced
rejection: the ValueError raised for blank text on game.py line 224 is
swallowed by the except on lines 243-247, after the increment on
line 222 has already happened. -/
theorem blank_choice_consumes_turn_cex :
    (make_choice (init_game []) "   ".toList oracleAllOk).1.turn_count = 1 ∧
    (init_game ([] : List Char)).turn_count = 0 ∧
    (make_choice (init_game []) "   ".toList oracleAllOk).2.1 = unclearConsequence := by
  exact ⟨rfl, rfl, rfl⟩

/-- Claim C7 amended: for blank choice text, make_choice raises
internally but its own except branch absorbs the error, so the caller
receives the generic fallback pair with no explicit rejection; the turn
is consumed (turn_count is incremented), while happiness, wealth and
history are left unchanged. -/
theorem blank_choice_fallback (g : GameState) (choice : List Char) (o : Oracles)
    (hb : isBlank choice = true) :
    (make_choice g choice o).1 = { g with turn_count := g.turn_count + 1 } ∧
    (make_choice g choice o).2 = (unclearConsequence, get_story_segment o.recoverySegment) := by
  rw [make_choice, if_pos hb]
  exact ⟨rfl, rfl⟩

/-- Claim C7 amended witness: one space of choice text leaves every field
but turn_count at its starting value and yields the fallback pair. -/
theorem blank_choice_fallback_witness :
    (make_choice (init_game []) [' '] oracleAllOk).1 =
      { player_history := [], happiness := 30, wealth := 100000,
        turn_count := 1, game_id := [] } ∧
    (make_choice (init_game []) [' '] oracleAllOk).2 =
      (unclearConsequence, "STORY: Recovery.".toList) :=
  blank_choice_fallback (init_game []) [' '] oracleAllOk (by decide)

/-- Claim C8 counterexample: when only the next-segment generation fails
(the consequence call succeeded), make_choice returns the real
consequence, not the generic fallback string, and the segment slot holds
the fixed failure text of get_story_segment, not a segment produced from
the recovery prompt. -/
theorem next_segment_failure_keeps_consequence_cex :
    (make_choice (init_game []) sampleChoice oracleSegFail).2.1 ≠ unclearConsequence ∧
    (make_choice (init_game []) sampleChoice oracleSegFail).2.2 = genFailureText ∧
    (make_choice (init_game []) sampleChoice oracleSegFail).2.2 ≠
      get_story_segment oracleSegFail.recoverySegment := by
  refine ⟨by decide, rfl, by decide⟩

/-- Claim C8 amended: no generator failure propagates out of make_choice
and a (consequence, next_segment) pair is always returned, but the two
failure sites recover differently: a consequence failure lands in the
except branch, which substitutes the generic fallback consequence and
generates the next segment from the recovery prompt, while a
next-segment failure after a successful consequence keeps the real
consequence and fills the segment slot with the fixed failure text of
get_story_segment. -/
theorem generator_failure_fallbacks (g : GameState) (choice : List Char) (o : Oracles)
    (hb : isBlank choice = false) (hs : o.storeOk = true) :
    (o.consequence = none →
      (make_choice g choice o).2 =
        (unclearConsequence, get_story_segment o.recoverySegment)) ∧
    (∀ c, o.consequence = some c → o.nextSegment = none →
      (make_choice g choice o).2 = (c, genFailureText)) := by
  rw [make_choice]
  simp only [hb, hs, Bool.false_eq_true, if_false, Bool.true_eq_false]
  constructor
  · intro hc
    rw [hc]
  · intro c hc hn
    rw [hc, hn]
    rfl

/-- Claim C8 amended witness: with the consequence call failing, the
returned pair is the generic fallback consequence and the segment
generated from the recovery prompt. -/
theorem generator_failure_fallbacks_witness :
    (make_choice (init_game []) sampleChoice oracleConsFail).2 =
      (unclearConsequence, "STORY: Recovery.".toList) :=
  (generator_failure_fallbacks (init_game []) sampleChoice oracleConsFail
    (by decide) rfl).1 rfl

/-- Claim C10: a turn is not atomic on consequence-generation failure:
for non-blank choice text with the store succeeding, if the consequence
call fails after update_stats has run, the state keeps the post-delta
happiness and wealth and the incremented turn_count, the chosen text is
not appended to history, and the caller receives the fallback pair
indistinguishable in shape from a successful turn. -/
theorem partial_turn_on_consequence_failure (g : GameState) (choice : List Char)
    (o : Oracles) (hb : isBlank choice = false) (hs : o.storeOk = true)
    (hc : o.consequence = none) :
    (make_choice g choice o).1.happiness =
      max 0 (min 100 (g.happiness + (parse_stats_impact choice).1)) ∧
    (make_choice g choice o).1.wealth =
      max 0 (g.wealth + (parse_stats_impact choice).2) ∧
    (make_choice g choice o).1.turn_count = g.turn_count + 1 ∧
    (make_choice g choice o).1.player_history = g.player_history ∧
    (make_choice g choice o).2 =
      (unclearConsequence, get_story_segment o.recoverySegment) := by
  rw [make_choice]
  simp only [hb, hs, hc, Bool.false_eq_true, if_false, Bool.true_eq_false]
  simp [update_stats, apply_deltas]

/-- Claim C10 witness: the Bran choice (+10 happiness, +25000 wealth)
with a failing consequence call leaves a state with happiness 40, wealth
125000, turn 1 and an empty history, and returns the fallback pair. -/
theorem partial_turn_on_consequence_failure_witness :
    (make_choice (init_game []) sampleChoice oracleConsFail).1.happiness = 40 ∧
    (make_choice (init_game []) sampleChoice oracleConsFail).1.wealth = 125000 ∧
    (make_choice (init_game []) sampleChoice oracleConsFail).1.turn_count = 1 ∧
    (make_choice (init_game []) sampleChoice oracleConsFail).1.player_history = [] ∧
    (make_choice (init_game []) sampleChoice oracleConsFail).2 =
      (unclearConsequence, "STORY: Recovery.".toList) :=
  partial_turn_on_consequence_failure (init_game []) sampleChoice oracleConsFail
    (by decide) rfl rfl

end GOL
